import Mathlib

/-
Verification of the ddm_monitor ingestion pipeline (src/main.py) against its
natural-language specification.  The Python program is shallowly embedded:
every function below mirrors the control flow of the function of the same
name in src/main.py; external effects (HTTP fetches, filesystem writes,
wall-clock reads) are passed in as explicit data (fetch outcomes, a
filesystem state record, success/failure oracles, a local-time record).
-/

namespace DdmMonitor

/-- Shape of one post record as built by scrape_ddm_news: the listing fields
title, detail_url, date, tags, description always present, and the optional
content and error keys added by detail resolution (none models an absent
key in the Python dict). -/
structure Post where
  title : String
  detail_url : String
  date : String
  tags : List String
  description : String
  content : Option String
  error : Option String
deriving DecidableEq, Repr

/-- Response record returned by the /posts endpoint (get_posts). -/
structure PostsResponse where
  posts : List Post
  total : Nat
  offset : Nat
  limit : Nat
  has_more : Bool
  last_updated : Option String
deriving DecidableEq, Repr

/-- Embedding of get_posts (src/main.py lines 354-411).  latest models the
module-global latest_posts list; lastUpd abstracts the archive-directory
timestamp computed in the try block of the non-empty branch (that
computation touches no other response field and is skipped entirely on the
empty branch, where the code returns last_updated None).  offset and limit
are the validated query parameters (offset at least 0, limit between 1 and
100); Python's latest_posts[offset:end] is drop offset then take
(end - offset), which agrees with Python slicing for every offset. -/
def get_posts (latest : List Post) (lastUpd : Option String)
    (offset limit : Nat) : PostsResponse :=
  if latest.isEmpty then
    ⟨[], 0, offset, limit, false, none⟩
  else
    let total := latest.length
    let e := min (offset + limit) total
    ⟨(latest.drop offset).take (e - offset), total, offset, limit,
      decide (e < total), lastUpd⟩

/-- Dict returned by fetch_post_detail: the url key is always set, the
content and error keys are optional (none models an absent key). -/
structure DetailResult where
  url : String
  content : Option String
  error : Option String
deriving DecidableEq, Repr

/-- Outcome of the single HTTP GET inside fetch_post_detail, together with
the parsed shape of the body on success.  district is some paras exactly
when the page has a .district div, with paras the stripped texts of its p
elements (possibly empty, possibly containing empty strings). -/
inductive FetchDetail where
  | timeout : FetchDetail
  | requestError : String → FetchDetail
  | otherError : String → FetchDetail
  | ok : Nat → Option (List String) → FetchDetail
deriving DecidableEq, Repr

/-- Embedding of fetch_post_detail (src/main.py lines 111-168).  The dict
starts as just the url; a timeout, request error or unexpected exception
sets error only; a non-200 status sets error only; on status 200 with a
.district div the content key is the double-newline join of the non-empty
paragraph texts (hence the empty string when no paragraph has text), and
with no .district div the content key is set to the empty string; in none
of the 200-status branches is the error key set. -/
def fetch_post_detail (url : String) : FetchDetail → DetailResult
  | .timeout => ⟨url, none, some ("Timeout while fetching " ++ url)⟩
  | .requestError m =>
      ⟨url, none, some ("Request error for " ++ url ++ ": " ++ m)⟩
  | .otherError m =>
      ⟨url, none, some ("Unexpected error fetching " ++ url ++ ": " ++ m)⟩
  | .ok status district =>
      if status ≠ 200 then ⟨url, none, some ("HTTP " ++ toString status)⟩
      else
        match district with
        | some paras =>
            ⟨url, some (String.intercalate "\n\n"
              (paras.filter (fun s => s ≠ ""))), none⟩
        | none => ⟨url, some "", none⟩

/-- Outcomes that asyncio.gather with return_exceptions=True hands to the
zip loop of scrape_ddm_news: either an Exception instance (carrying its
string form) or the dict built by fetch_post_detail. -/
inductive DetailOutcome where
  | exn : String → DetailOutcome
  | detail : DetailResult → DetailOutcome
deriving DecidableEq, Repr

/-- Embedding of the body of the zip loop (src/main.py lines 309-317): an
exception result sets the post's error key to its string; a dict result
copies its content key and its error key into the post when present. -/
def applyDetail (resolve : Post → DetailOutcome) (p : Post) : Post :=
  match resolve p with
  | .exn m => { p with error := some m }
  | .detail d =>
      let p1 := match d.content with
        | some c => { p with content := some c }
        | none => p
      match d.error with
      | some e => { p1 with error := some e }
      | none => p1

/-- Embedding of the batch loop of scrape_ddm_news (src/main.py lines
301-317): process the first batchSize posts (concurrently via gather, which
returns the results in task order, i.e. batch order), then recurse on the
rest.  fuel bounds the recursion; resolveAll below supplies fuel equal to
the list length, which suffices whenever batchSize is at least 1. -/
def resolveChunks (resolve : Post → DetailOutcome) (batchSize : Nat) :
    Nat → List Post → List Post
  | 0, _ => []
  | _, [] => []
  | fuel + 1, p :: ps =>
      ((p :: ps).take batchSize).map (applyDetail resolve) ++
        resolveChunks resolve batchSize fuel ((p :: ps).drop batchSize)

/-- Batched detail resolution over a whole listing, as performed by the
for-range loop of scrape_ddm_news. -/
def resolveAll (resolve : Post → DetailOutcome) (batchSize : Nat)
    (posts : List Post) : List Post :=
  resolveChunks resolve batchSize posts.length posts

/-- Predicate on a fetch outcome: the cases the specification calls fetch
failures (transport timeout, request error, unexpected exception, non-200
status). -/
def isFetchFailure : FetchDetail → Bool
  | .timeout => true
  | .requestError _ => true
  | .otherError _ => true
  | .ok status _ => status ≠ 200

/-- State of the data directory: the current posts file
(data/current/posts.json), the staging file (data/current/posts_new.json),
and the archive directory as a name-to-content map (association list with
replace-on-put, mirroring that a directory holds one file per name).  none
models an absent file. -/
structure FS where
  current : Option (List Post)
  tmp : Option (List Post)
  archive : List (String × List Post)
deriving DecidableEq, Repr

/-- Content of the archive file of the given name, none when absent. -/
def archGet (a : List (String × List Post)) (name : String) :
    Option (List Post) :=
  match a with
  | [] => none
  | e :: rest => if e.1 = name then some e.2 else archGet rest name

/-- Placing a file in the archive directory under a name, replacing any
file already there (shutil.move overwrites an existing destination). -/
def archPut (a : List (String × List Post)) (name : String)
    (content : List Post) : List (String × List Post) :=
  (name, content) :: a.filter (fun e => e.1 != name)

/-- Archive file name chosen by archive_current_posts (src/main.py lines
70-76): the date-stamped name posts_<date>.json, switched to
posts_<date>_<hhmm>.json when a file of the date-stamped name already
exists.  d and hm stand for the strftime renderings of the two
datetime.now() calls. -/
def archiveName (d hm : String) (a : List (String × List Post)) : String :=
  if (archGet a ("posts_" ++ d ++ ".json")).isSome then
    "posts_" ++ d ++ "_" ++ hm ++ ".json"
  else "posts_" ++ d ++ ".json"

/-- Success/failure oracle for one publish run: whether the json dump into
the staging file succeeds (and, when it does not, what truncated content
the opened-for-write staging file is left with), whether the shutil.move
into the archive succeeds, whether the shutil.move of the staging file onto
the current file succeeds, and whether the cleanup unlink of the staging
file succeeds.  shutil.move failures are modelled as atomic (the rename
raises and moves nothing). -/
structure PubOracle where
  saveOk : Bool
  saveLeftover : Option (List Post)
  archiveMoveOk : Bool
  commitMoveOk : Bool
  unlinkOk : Bool
deriving DecidableEq, Repr

/-- Embedding of save_posts (src/main.py lines 54-62) at the staging path
POSTS_NEW_FILE, the only path update_posts calls it on: on success the
staging file holds the posts and True is returned; on failure the exception
is caught inside save_posts, False is returned, and only the staging file
(opened for write) may have been disturbed. -/
def save_posts (o : PubOracle) (posts : List Post) (fs : FS) : Bool × FS :=
  if o.saveOk then (true, { fs with tmp := some posts })
  else (false, { fs with tmp := o.saveLeftover })

/-- Embedding of archive_current_posts (src/main.py lines 64-82).  When no
current file exists it returns True at once.  Otherwise it moves the
current file into the archive under archiveName (the date-stamped name,
refined once with hour-minute on collision and not re-checked); a move
failure is caught and returns False with nothing moved. -/
def archive_current_posts (o : PubOracle) (d hm : String) (fs : FS) :
    Bool × FS :=
  match fs.current with
  | none => (true, fs)
  | some cur =>
      let nm := archiveName d hm fs.archive
      if o.archiveMoveOk then
        (true, { fs with current := none, archive := archPut fs.archive nm cur })
      else (false, fs)

/-- Embedding of update_posts (src/main.py lines 84-106).  Staging failure
and archiving failure return False directly (save_posts and
archive_current_posts catch their own exceptions, so the except block of
update_posts does not run and the staging file is not cleaned up there).
Only the commit move can raise into the except block, which then unlinks
the staging file if it exists, itself best-effort. -/
def update_posts (o : PubOracle) (d hm : String) (new_posts : List Post)
    (fs : FS) : Bool × FS :=
  match save_posts o new_posts fs with
  | (false, fs1) => (false, fs1)
  | (true, fs1) =>
      match archive_current_posts o d hm fs1 with
      | (false, fs2) => (false, fs2)
      | (true, fs2) =>
          if o.commitMoveOk then
            (true, { fs2 with tmp := none, current := some new_posts })
          else
            (false, if fs2.tmp.isSome && o.unlinkOk then
                { fs2 with tmp := none }
              else fs2)

/-- Outcome of fetching one listing page inside the pagination loop of
scrape_ddm_news: a non-200 status (which the code answers with return), a
timeout / request error / unexpected exception (all three of which the
code answers with break), or a parsed page carrying the posts extracted
from its items and whether a usable next-page link was found. -/
inductive PageOutcome where
  | httpError : Nat → PageOutcome
  | transportError : PageOutcome
  | ok : List Post → Bool → PageOutcome
deriving DecidableEq, Repr

/-- How the pagination loop of scrape_ddm_news ended: normally (a page
without a usable next-page link, or no further fetches), by the return of
the non-200 branch, or by the break of the exception handlers. -/
inductive CrawlExit where
  | completed : CrawlExit
  | httpAbort : CrawlExit
  | broke : CrawlExit
deriving DecidableEq, Repr

/-- Embedding of the pagination loop (src/main.py lines 190-294): the list
gives the successive page-fetch outcomes consumed while current_url is
set; all_posts accumulates the entries of ok pages in encounter order; a
non-200 outcome ends the run with the return of line 200, an exception
outcome with a break, and a page without a next link (or an exhausted
outcome list) ends the loop normally. -/
def crawlPages : List PageOutcome → List Post × CrawlExit
  | [] => ([], .completed)
  | .httpError _ :: _ => ([], .httpAbort)
  | .transportError :: _ => ([], .broke)
  | .ok entries hasNext :: rest =>
      if hasNext then
        let r := crawlPages rest
        (entries ++ r.1, r.2)
      else (entries, .completed)

/-- Embedding of scrape_ddm_news (src/main.py lines 170-333) acting on the
filesystem state and the module-global latest_posts.  current_posts copies
latest_posts before the run; an httpAbort exit returns at once with
latest_posts restored to the copy; otherwise, when any posts were
collected, their details are resolved in batches of 5 and update_posts is
attempted, latest_posts becoming the resolved list on success and the
pre-run copy on failure; with no posts collected nothing is published. -/
def scrape_ddm_news (pages : List PageOutcome)
    (resolve : Post → DetailOutcome) (o : PubOracle) (d hm : String)
    (fs : FS) (latest : List Post) : FS × List Post :=
  let current_posts := latest
  let crawl := crawlPages pages
  match crawl.2 with
  | .httpAbort => (fs, current_posts)
  | _ =>
      if crawl.1.isEmpty then (fs, current_posts)
      else
        let resolved := resolveAll resolve 5 crawl.1
        match update_posts o d hm resolved fs with
        | (true, fs2) => (fs2, resolved)
        | (false, fs2) => (fs2, current_posts)

/-- Local wall-clock datetime in the configured timezone, as produced by
datetime.now(tz): day is an abstract day index, the remaining fields are
the time of day. -/
structure LocalDT where
  day : Nat
  hour : Nat
  minute : Nat
  second : Nat
  micro : Nat
deriving DecidableEq, Repr

/-- Microseconds since the epoch of the day index; Python datetime
comparison of two valid datetimes in the same timezone agrees with
comparison of these values. -/
def toMicros (t : LocalDT) : Nat :=
  (((t.day * 24 + t.hour) * 60 + t.minute) * 60 + t.second) * 1000000
    + t.micro

/-- Embedding of now.replace(hour=target_hour, minute=target_minute,
second=0, microsecond=0) from periodic_scrape. -/
def replaceTime (t : LocalDT) (h m : Nat) : LocalDT := ⟨t.day, h, m, 0, 0⟩

/-- Embedding of adding timedelta(days=1). -/
def addOneDay (t : LocalDT) : LocalDT := { t with day := t.day + 1 }

/-- Embedding of the next-run computation of periodic_scrape (src/main.py
lines 343-346): today's target time, pushed to tomorrow when now is at or
past it (the code tests now >= next_run). -/
def next_run_time (t : LocalDT) (h m : Nat) : LocalDT :=
  let nr := replaceTime t h m
  if toMicros nr ≤ toMicros t then addOneDay nr else nr

/-- Field ranges a datetime.now value always satisfies. -/
def ValidDT (t : LocalDT) : Prop :=
  t.hour < 24 ∧ t.minute < 60 ∧ t.second < 60 ∧ t.micro < 1000000

/-- Sample pre-existing post used in the concrete scenarios. -/
def pOld : Post := ⟨"old", "u0", "", [], "", none, none⟩

/-- Sample freshly scraped post used in the concrete scenarios. -/
def pNew : Post := ⟨"new", "u1", "", [], "", none, none⟩

/-- Sample second archived post used in the concrete scenarios. -/
def pB : Post := ⟨"b", "u2", "", [], "", none, none⟩

end DdmMonitor

namespace DdmMonitor

/-- Unfolding of archGet on a cons cell. -/
theorem archGet_cons (e : String × List Post)
    (rest : List (String × List Post)) (n : String) :
    archGet (e :: rest) n
      = if e.1 = n then some e.2 else archGet rest n := rfl

/-- Reading any other name is unaffected by dropping the entries of one
name from an archive listing. -/
theorem archGet_filter_ne (a : List (String × List Post)) (n name : String)
    (h : n ≠ name) :
    archGet (a.filter (fun e => e.1 != name)) n = archGet a n := by
  induction a with
  | nil => rfl
  | cons e rest ih =>
      by_cases he : e.1 = name
      · have hen : e.1 ≠ n := fun hx => h (hx.symm.trans he)
        have h1 : List.filter (fun x => x.1 != name) (e :: rest)
            = List.filter (fun x => x.1 != name) rest := by
          simp [List.filter_cons, he]
        rw [h1, ih, archGet_cons, if_neg hen]
      · have hf : (e.1 != name) = true := bne_iff_ne.mpr he
        have h1 : List.filter (fun x => x.1 != name) (e :: rest)
            = e :: List.filter (fun x => x.1 != name) rest := by
          simp [List.filter_cons, hf]
        rw [h1, archGet_cons, archGet_cons]
        by_cases hen : e.1 = n
        · rw [if_pos hen, if_pos hen]
        · rw [if_neg hen, if_neg hen]
          exact ih

/-- Reading back the name just placed yields the new content. -/
theorem archGet_archPut_same (a : List (String × List Post))
    (name : String) (c : List Post) :
    archGet (archPut a name c) name = some c := by
  simp [archPut, archGet_cons]

/-- Reading any other name is unaffected by placing a file. -/
theorem archGet_archPut_other (a : List (String × List Post))
    (name n : String) (c : List Post) (h : n ≠ name) :
    archGet (archPut a name c) n = archGet a n := by
  have hne : ¬((name, c).1 = n) := fun hx => h (hx.symm)
  rw [archPut, archGet_cons, if_neg hne]
  exact archGet_filter_ne a n name h

/-- Consecutive fixed-size batching with enough fuel is the elementwise map
of the per-item update. -/
theorem resolveChunks_eq_map (resolve : Post → DetailOutcome)
    (batchSize : Nat) (hbs : 1 ≤ batchSize) :
    ∀ fuel posts, posts.length ≤ fuel →
      resolveChunks resolve batchSize fuel posts
        = posts.map (applyDetail resolve) := by
  intro fuel
  induction fuel with
  | zero =>
      intro posts hp
      rcases List.eq_nil_of_length_eq_zero (Nat.le_zero.mp hp) with rfl
      rfl
  | succ n ih =>
      intro posts hp
      match posts with
      | [] => rfl
      | p :: ps =>
          rw [resolveChunks, ih ((p :: ps).drop batchSize)
            (by simp only [List.length_drop, List.length_cons]
                simp only [List.length_cons] at hp
                omega),
            ← List.map_append, List.take_append_drop]

/-- Under a positive batch size, resolveAll is the map of applyDetail. -/
theorem resolveAll_eq_map (resolve : Post → DetailOutcome)
    (batchSize : Nat) (posts : List Post) (hbs : 1 ≤ batchSize) :
    resolveAll resolve batchSize posts = posts.map (applyDetail resolve) :=
  resolveChunks_eq_map resolve batchSize hbs posts.length posts le_rfl

/-- C2: for every input sequence posts, every batchSize at least 1, every
resolution behaviour resolve (including ones that fail on some entries) and
every index i, the batched resolution has the same length as the input, its
i-th element is exactly the i-th input entry updated with its own
resolution outcome (so one entry's failure never disturbs another entry's
recorded result), and that update preserves the entry's title and
detail_url. -/
theorem resolveAll_pointwise (resolve : Post → DetailOutcome)
    (batchSize : Nat) (posts : List Post) (i : Nat) (p : Post)
    (hbs : 1 ≤ batchSize) :
    (resolveAll resolve batchSize posts).length = posts.length ∧
    (resolveAll resolve batchSize posts)[i]?
      = (posts[i]?).map (applyDetail resolve) ∧
    (applyDetail resolve p).title = p.title ∧
    (applyDetail resolve p).detail_url = p.detail_url := by
  rw [resolveAll_eq_map resolve batchSize posts hbs]
  refine ⟨List.length_map posts _, List.getElem?_map _ _ _, ?_, ?_⟩ <;>
    · unfold applyDetail
      rcases resolve p with m | d
      · rfl
      · rcases d with ⟨u, c, e⟩
        rcases c with _ | c <;> rcases e with _ | e <;> rfl

/-- Witness for resolveAll_pointwise: two entries, batch size 1, the first
resolution failing with an exception and the second succeeding. -/
theorem resolveAll_pointwise_witness :
    1 ≤ 1 ∧
    ((resolveAll
        (fun p => if p.title = "a" then .exn "boom"
          else .detail ⟨p.detail_url, some "text", none⟩) 1
        [⟨"a", "u1", "", [], "", none, none⟩,
         ⟨"b", "u2", "", [], "", none, none⟩]).length = 2 ∧
     (resolveAll
        (fun p => if p.title = "a" then .exn "boom"
          else .detail ⟨p.detail_url, some "text", none⟩) 1
        [⟨"a", "u1", "", [], "", none, none⟩,
         ⟨"b", "u2", "", [], "", none, none⟩])[1]?
       = (([⟨"a", "u1", "", [], "", none, none⟩,
            ⟨"b", "u2", "", [], "", none, none⟩] : List Post)[1]?).map
           (applyDetail (fun p => if p.title = "a" then .exn "boom"
             else .detail ⟨p.detail_url, some "text", none⟩)) ∧
     (applyDetail (fun p => if p.title = "a" then .exn "boom"
         else .detail ⟨p.detail_url, some "text", none⟩)
       ⟨"a", "u1", "", [], "", none, none⟩).title = "a" ∧
     (applyDetail (fun p => if p.title = "a" then .exn "boom"
         else .detail ⟨p.detail_url, some "text", none⟩)
       ⟨"a", "u1", "", [], "", none, none⟩).detail_url = "u1") :=
  ⟨by decide,
   resolveAll_pointwise
     (fun p => if p.title = "a" then .exn "boom"
       else .detail ⟨p.detail_url, some "text", none⟩) 1
     [⟨"a", "u1", "", [], "", none, none⟩,
      ⟨"b", "u2", "", [], "", none, none⟩] 1
     ⟨"a", "u1", "", [], "", none, none⟩ (by decide)⟩

/-- C5 counterexample: the claim says a missing expected content region is
captured into the error field, but on a 200 response whose page has no
.district div fetch_post_detail returns content = some "" and no error at
all. -/
theorem fetch_post_detail_missing_region_no_error :
    (fetch_post_detail "u" (.ok 200 none)).error = none ∧
    (fetch_post_detail "u" (.ok 200 none)).content = some "" := by
  constructor <;> rfl

/-- C5 amended: any transport timeout, request error, unexpected exception
or non-200 status is captured into the error field of the returned post,
with the content key left absent rather than set to the empty string; on a
200 status no error is set and content is always present: the
double-newline join of the non-empty paragraph texts when the content
region exists (hence "" when it yields no extractable text), and "" when
the content region is missing. -/
theorem fetch_post_detail_spec (url : String) (r : FetchDetail)
    (paras : List String) :
    (isFetchFailure r = true →
      ((fetch_post_detail url r).error.isSome = true ∧
        (fetch_post_detail url r).content = none)) ∧
    (isFetchFailure r = false →
      ((fetch_post_detail url r).error = none ∧
        ((fetch_post_detail url r).content).isSome = true)) ∧
    fetch_post_detail url (.ok 200 (some paras))
      = ⟨url, some (String.intercalate "\n\n"
          (paras.filter (fun s => s ≠ ""))), none⟩ ∧
    fetch_post_detail url (.ok 200 none) = ⟨url, some "", none⟩ := by
  rcases r with _ | m | m | ⟨status, district⟩
  · exact ⟨fun _ => ⟨rfl, rfl⟩, fun h => by simp [isFetchFailure] at h,
      rfl, rfl⟩
  · exact ⟨fun _ => ⟨rfl, rfl⟩, fun h => by simp [isFetchFailure] at h,
      rfl, rfl⟩
  · exact ⟨fun _ => ⟨rfl, rfl⟩, fun h => by simp [isFetchFailure] at h,
      rfl, rfl⟩
  · by_cases hs : status = 200
    · subst hs
      refine ⟨fun h => by simp [isFetchFailure] at h, fun _ => ?_, rfl, rfl⟩
      unfold fetch_post_detail
      rcases district with _ | paras2 <;> simp
    · refine ⟨fun _ => ?_, fun h => ?_, rfl, rfl⟩
      · unfold fetch_post_detail
        simp [hs]
      · simp [isFetchFailure, hs] at h

/-- Witness for fetch_post_detail_spec at a timeout outcome. -/
theorem fetch_post_detail_spec_witness :
    (isFetchFailure .timeout = true →
      ((fetch_post_detail "u" .timeout).error.isSome = true ∧
        (fetch_post_detail "u" .timeout).content = none)) ∧
    (isFetchFailure .timeout = false →
      ((fetch_post_detail "u" .timeout).error = none ∧
        ((fetch_post_detail "u" .timeout).content).isSome = true)) ∧
    fetch_post_detail "u" (.ok 200 (some ["x", ""]))
      = ⟨"u", some (String.intercalate "\n\n"
          ((["x", ""] : List String).filter (fun s => s ≠ ""))), none⟩ ∧
    fetch_post_detail "u" (.ok 200 none) = ⟨"u", some "", none⟩ :=
  ⟨(fetch_post_detail_spec "u" .timeout ["x", ""]).1,
   fun h => by simp [isFetchFailure] at h,
   (fetch_post_detail_spec "u" .timeout ["x", ""]).2.2⟩

/-- C3: for every publish call whose staging step fails (the json dump into
the temporary file returns failure), update_posts returns failure, the
current posts file is byte-identical before and after the call, and the
archive directory is untouched. -/
theorem update_posts_staging_failure (o : PubOracle) (d hm : String)
    (new_posts : List Post) (fs : FS) (h : o.saveOk = false) :
    (update_posts o d hm new_posts fs).1 = false ∧
    (update_posts o d hm new_posts fs).2.current = fs.current ∧
    (update_posts o d hm new_posts fs).2.archive = fs.archive := by
  unfold update_posts save_posts
  simp [h]

/-- Witness for update_posts_staging_failure at a concrete failing dump. -/
theorem update_posts_staging_failure_witness :
    (⟨false, none, true, true, true⟩ : PubOracle).saveOk = false ∧
    ((update_posts ⟨false, none, true, true, true⟩ "20250101" "0300"
        [pNew] ⟨some [pOld], none, []⟩).1 = false ∧
     (update_posts ⟨false, none, true, true, true⟩ "20250101" "0300"
        [pNew] ⟨some [pOld], none, []⟩).2.current
       = (⟨some [pOld], none, []⟩ : FS).current ∧
     (update_posts ⟨false, none, true, true, true⟩ "20250101" "0300"
        [pNew] ⟨some [pOld], none, []⟩).2.archive
       = (⟨some [pOld], none, []⟩ : FS).archive) :=
  ⟨rfl, update_posts_staging_failure ⟨false, none, true, true, true⟩
    "20250101" "0300" [pNew] ⟨some [pOld], none, []⟩ rfl⟩

/-- C4 counterexample: a publish call whose archiving step fails (staging
succeeded, the archive move did not) returns failure with the temporary
staged file still present — the claimed removal of the staged file does
not happen on this path, because the early return False skips the cleanup
that lives in the except block; and a publish call whose committing step
fails leaves no current posts file at all (the previous dataset has been
moved into the archive), so the current file holds neither the full
previous nor the full new dataset. -/
theorem update_posts_cleanup_counterexample :
    ((update_posts ⟨true, none, false, true, true⟩ "20250101" "0300"
        [pNew] ⟨some [pOld], none, []⟩).1 = false ∧
     (update_posts ⟨true, none, false, true, true⟩ "20250101" "0300"
        [pNew] ⟨some [pOld], none, []⟩).2.tmp = some [pNew]) ∧
    ((update_posts ⟨true, none, true, false, true⟩ "20250101" "0300"
        [pNew] ⟨some [pOld], none, []⟩).1 = false ∧
     (update_posts ⟨true, none, true, false, true⟩ "20250101" "0300"
        [pNew] ⟨some [pOld], none, []⟩).2.current = none) :=
  ⟨⟨rfl, rfl⟩, ⟨rfl, rfl⟩⟩

/-- C4 amended: when the archiving step fails, update_posts returns failure
with the temporary staged file left in place and the current file (still
holding the full previous dataset) untouched; when the committing step
fails, the temporary staged file is removed (the cleanup unlink
succeeding), but the current posts file is then absent — the previous
dataset survives only as an archive entry, not in the current file. -/
theorem update_posts_failure_paths (o : PubOracle) (d hm : String)
    (new_posts : List Post) (fs : FS)
    (hsave : o.saveOk = true) (hunlink : o.unlinkOk = true) :
    (o.archiveMoveOk = false → fs.current.isSome = true →
      update_posts o d hm new_posts fs
        = (false, { fs with tmp := some new_posts })) ∧
    (o.archiveMoveOk = true → o.commitMoveOk = false →
      ((update_posts o d hm new_posts fs).1 = false ∧
       (update_posts o d hm new_posts fs).2.tmp = none ∧
       (update_posts o d hm new_posts fs).2.current = none)) := by
  obtain ⟨fscur, fstmp, fsarch⟩ := fs
  constructor
  · intro hmv hcur
    rcases fscur with _ | cur
    · simp at hcur
    · simp [update_posts, save_posts, archive_current_posts, hsave, hmv]
  · intro hmv hcmt
    rcases fscur with _ | cur <;>
      simp [update_posts, save_posts, archive_current_posts, hsave, hmv,
        hcmt, hunlink]

/-- Witness for update_posts_failure_paths at a concrete oracle and
filesystem. -/
theorem update_posts_failure_paths_witness :
    ((⟨true, none, false, true, true⟩ : PubOracle).saveOk = true ∧
     (⟨true, none, false, true, true⟩ : PubOracle).unlinkOk = true) ∧
    (((⟨true, none, false, true, true⟩ : PubOracle).archiveMoveOk = false →
       (⟨some [pOld], none, []⟩ : FS).current.isSome = true →
       update_posts ⟨true, none, false, true, true⟩ "20250101" "0300"
           [pNew] ⟨some [pOld], none, []⟩
         = (false, { (⟨some [pOld], none, []⟩ : FS) with
             tmp := some [pNew] })) ∧
     ((⟨true, none, false, true, true⟩ : PubOracle).archiveMoveOk = true →
       (⟨true, none, false, true, true⟩ : PubOracle).commitMoveOk = false →
       ((update_posts ⟨true, none, false, true, true⟩ "20250101" "0300"
           [pNew] ⟨some [pOld], none, []⟩).1 = false ∧
        (update_posts ⟨true, none, false, true, true⟩ "20250101" "0300"
           [pNew] ⟨some [pOld], none, []⟩).2.tmp = none ∧
        (update_posts ⟨true, none, false, true, true⟩ "20250101" "0300"
           [pNew] ⟨some [pOld], none, []⟩).2.current = none))) :=
  ⟨⟨rfl, rfl⟩, update_posts_failure_paths ⟨true, none, false, true, true⟩
    "20250101" "0300" [pNew] ⟨some [pOld], none, []⟩ rfl rfl⟩

/-- C7 counterexample: when both the date-stamped name and the refined
date-plus-time name already exist in the archive, archive_current_posts
moves the current file onto the refined name and overwrites the archive
file that was there — so an existing archive file can be overwritten,
contrary to the claim. -/
theorem archive_current_posts_overwrite_counterexample :
    archGet [("posts_20250101.json", [pOld]),
        ("posts_20250101_0300.json", [pB])] "posts_20250101_0300.json"
      = some [pB] ∧
    (archive_current_posts ⟨true, none, true, true, true⟩ "20250101" "0300"
        ⟨some [pNew], none,
         [("posts_20250101.json", [pOld]),
          ("posts_20250101_0300.json", [pB])]⟩).1 = true ∧
    archGet (archive_current_posts ⟨true, none, true, true, true⟩
        "20250101" "0300"
        ⟨some [pNew], none,
         [("posts_20250101.json", [pOld]),
          ("posts_20250101_0300.json", [pB])]⟩).2.archive
        "posts_20250101_0300.json"
      = some [pNew] ∧
    [pB] ≠ [pNew] :=
  ⟨by decide, by decide, by decide, by decide⟩

/-- C7 amended: when a current dataset file exists and the move succeeds,
it is moved into the archive under the date-stamped name, or under the
refined date-plus-hour-minute name when the date-stamped name is already
taken; the refined name is not itself checked, so only archive files under
names other than the chosen one are guaranteed unchanged (a file already
at the chosen refined name is overwritten); when no current dataset file
exists, archiving is a no-op that reports success. -/
theorem archive_current_posts_spec (o : PubOracle) (d hm : String)
    (fs : FS) (c : List Post) (n : String)
    (hmv : o.archiveMoveOk = true) :
    (fs.current = none → archive_current_posts o d hm fs = (true, fs)) ∧
    (fs.current = some c →
      ((archive_current_posts o d hm fs).1 = true ∧
       (archive_current_posts o d hm fs).2.current = none ∧
       (archive_current_posts o d hm fs).2.tmp = fs.tmp ∧
       archGet (archive_current_posts o d hm fs).2.archive
           (archiveName d hm fs.archive) = some c ∧
       (n ≠ archiveName d hm fs.archive →
         archGet (archive_current_posts o d hm fs).2.archive n
           = archGet fs.archive n))) := by
  obtain ⟨fscur, fstmp, fsarch⟩ := fs
  constructor
  · intro hc
    simp only at hc
    subst hc
    rfl
  · intro hc
    simp only at hc
    subst hc
    refine ⟨?_, ?_, ?_, ?_, fun hn => ?_⟩
    · simp [archive_current_posts, hmv]
    · simp [archive_current_posts, hmv]
    · simp [archive_current_posts, hmv]
    · simp only [archive_current_posts, hmv, if_true]
      exact archGet_archPut_same fsarch (archiveName d hm fsarch) c
    · simp only [archive_current_posts, hmv, if_true]
      exact archGet_archPut_other fsarch (archiveName d hm fsarch) n c hn

/-- Witness for archive_current_posts_spec: a fresh date-stamped name,
current file present, an unrelated archive name probed. -/
theorem archive_current_posts_spec_witness :
    (⟨true, none, true, true, true⟩ : PubOracle).archiveMoveOk = true ∧
    (((⟨some [pOld], none, []⟩ : FS).current = none →
       archive_current_posts ⟨true, none, true, true, true⟩ "20250101"
         "0300" ⟨some [pOld], none, []⟩ = (true, ⟨some [pOld], none, []⟩)) ∧
     ((⟨some [pOld], none, []⟩ : FS).current = some [pOld] →
       ((archive_current_posts ⟨true, none, true, true, true⟩ "20250101"
           "0300" ⟨some [pOld], none, []⟩).1 = true ∧
        (archive_current_posts ⟨true, none, true, true, true⟩ "20250101"
           "0300" ⟨some [pOld], none, []⟩).2.current = none ∧
        (archive_current_posts ⟨true, none, true, true, true⟩ "20250101"
           "0300" ⟨some [pOld], none, []⟩).2.tmp
          = (⟨some [pOld], none, []⟩ : FS).tmp ∧
        archGet (archive_current_posts ⟨true, none, true, true, true⟩
            "20250101" "0300" ⟨some [pOld], none, []⟩).2.archive
            (archiveName "20250101" "0300" []) = some [pOld] ∧
        ("posts_other.json" ≠ archiveName "20250101" "0300" [] →
          archGet (archive_current_posts ⟨true, none, true, true, true⟩
              "20250101" "0300" ⟨some [pOld], none, []⟩).2.archive
              "posts_other.json"
            = archGet ([] : List (String × List Post))
                "posts_other.json")))) :=
  ⟨rfl, archive_current_posts_spec ⟨true, none, true, true, true⟩
    "20250101" "0300" ⟨some [pOld], none, []⟩ [pOld] "posts_other.json"
    rfl⟩

/-- C6: for every dataset and every valid request (offset at least 0, limit
between 1 and 100), the response of get_posts satisfies: the number of
returned posts equals min limit (total - offset) (natural subtraction, i.e.
min(limit, max(0, total-offset))), the returned posts are the slice of the
dataset from offset clipped to its length, and has_more holds exactly when
offset plus the number of returned posts is below total. -/
theorem get_posts_pagination (latest : List Post) (lastUpd : Option String)
    (offset limit : Nat) (h1 : 1 ≤ limit) (h2 : limit ≤ 100) :
    (get_posts latest lastUpd offset limit).posts.length
        = min limit (latest.length - offset) ∧
    (get_posts latest lastUpd offset limit).posts
        = (latest.drop offset).take limit ∧
    (get_posts latest lastUpd offset limit).total = latest.length ∧
    ((get_posts latest lastUpd offset limit).has_more = true ↔
      offset + (get_posts latest lastUpd offset limit).posts.length
        < latest.length) := by
  unfold get_posts
  by_cases hemp : latest.isEmpty
  · simp only [hemp, if_true]
    rcases List.isEmpty_iff.mp hemp with rfl
    simp
  · simp only [hemp, Bool.false_eq_true, if_false]
    have hlen : ((latest.drop offset).take
        (min (offset + limit) latest.length - offset)).length
        = min limit (latest.length - offset) := by
      simp only [List.length_take, List.length_drop]
      omega
    refine ⟨hlen, ?_, by trivial, ?_⟩
    · rw [List.take_eq_take]
      simp only [List.length_drop]
      omega
    · rw [hlen]
      simp only [decide_eq_true_eq]
      omega

/-- Witness for get_posts_pagination at a concrete dataset and request. -/
theorem get_posts_pagination_witness :
    (1 ≤ 2 ∧ 2 ≤ 100) ∧
    ((get_posts
        [⟨"a", "u1", "", [], "", none, none⟩,
         ⟨"b", "u2", "", [], "", none, none⟩,
         ⟨"c", "u3", "", [], "", none, none⟩] none 1 2).posts.length
        = min 2 (3 - 1) ∧
     (get_posts
        [⟨"a", "u1", "", [], "", none, none⟩,
         ⟨"b", "u2", "", [], "", none, none⟩,
         ⟨"c", "u3", "", [], "", none, none⟩] none 1 2).posts
        = (([⟨"a", "u1", "", [], "", none, none⟩,
         ⟨"b", "u2", "", [], "", none, none⟩,
         ⟨"c", "u3", "", [], "", none, none⟩] : List Post).drop 1).take 2 ∧
     (get_posts
        [⟨"a", "u1", "", [], "", none, none⟩,
         ⟨"b", "u2", "", [], "", none, none⟩,
         ⟨"c", "u3", "", [], "", none, none⟩] none 1 2).total = 3 ∧
     ((get_posts
        [⟨"a", "u1", "", [], "", none, none⟩,
         ⟨"b", "u2", "", [], "", none, none⟩,
         ⟨"c", "u3", "", [], "", none, none⟩] none 1 2).has_more = true ↔
      1 + (get_posts
        [⟨"a", "u1", "", [], "", none, none⟩,
         ⟨"b", "u2", "", [], "", none, none⟩,
         ⟨"c", "u3", "", [], "", none, none⟩] none 1 2).posts.length < 3)) :=
  ⟨⟨by decide, by decide⟩,
   get_posts_pagination
     [⟨"a", "u1", "", [], "", none, none⟩,
      ⟨"b", "u2", "", [], "", none, none⟩,
      ⟨"c", "u3", "", [], "", none, none⟩] none 1 2 (by decide) (by decide)⟩

/-- C1 counterexample: a crawl run whose first listing page succeeds with
one entry and a next-page link, and whose second listing-page fetch fails
with a transport error, is not marked failed: the break of the exception
handler falls through to the publish block, the collected entry is
resolved and published, and both the current posts file and the in-memory
latest_posts change — the previously published dataset is not retained. -/
theorem scrape_transport_publishes_counterexample :
    (crawlPages [.ok [pNew] true, .transportError]).2 = CrawlExit.broke ∧
    (scrape_ddm_news [.ok [pNew] true, .transportError]
        (fun p => .detail ⟨p.detail_url, some "text", none⟩)
        ⟨true, none, true, true, true⟩ "20250101" "0300"
        ⟨some [pOld], none, []⟩ [pOld]).1.current ≠ some [pOld] ∧
    (scrape_ddm_news [.ok [pNew] true, .transportError]
        (fun p => .detail ⟨p.detail_url, some "text", none⟩)
        ⟨true, none, true, true, true⟩ "20250101" "0300"
        ⟨some [pOld], none, []⟩ [pOld]).2 ≠ [pOld] := by
  refine ⟨by decide, by decide, by decide⟩

/-- C1 amended: for every crawl run, if fetching any listing page returns a
non-2xx status, the run as a whole is marked failed: no dataset built from
the entries collected so far is published, and the previously published
dataset (both the in-memory latest_posts and the current posts file) is
retained unchanged.  (A transport error or timeout, by contrast, only
breaks the pagination loop and the entries collected so far are still
published.) -/
theorem scrape_ddm_news_httpAbort (pages : List PageOutcome)
    (resolve : Post → DetailOutcome) (o : PubOracle) (d hm : String)
    (fs : FS) (latest : List Post)
    (h : (crawlPages pages).2 = CrawlExit.httpAbort) :
    scrape_ddm_news pages resolve o d hm fs latest = (fs, latest) := by
  simp only [scrape_ddm_news]
  rw [h]

/-- Witness for scrape_ddm_news_httpAbort: one entry collected, then a 500
status on the second page. -/
theorem scrape_ddm_news_httpAbort_witness :
    (crawlPages [.ok [pNew] true, .httpError 500]).2
      = CrawlExit.httpAbort ∧
    scrape_ddm_news [.ok [pNew] true, .httpError 500]
        (fun p => .detail ⟨p.detail_url, some "text", none⟩)
        ⟨true, none, true, true, true⟩ "20250101" "0300"
        ⟨some [pOld], none, []⟩ [pOld]
      = (⟨some [pOld], none, []⟩, [pOld]) :=
  ⟨by decide,
   scrape_ddm_news_httpAbort [.ok [pNew] true, .httpError 500]
     (fun p => .detail ⟨p.detail_url, some "text", none⟩)
     ⟨true, none, true, true, true⟩ "20250101" "0300"
     ⟨some [pOld], none, []⟩ [pOld] (by decide)⟩

/-- C10: for every crawl run in which the pagination loop collects zero
listing entries, no publish is attempted: the filesystem (current posts
file, staging file and archive) and the in-memory latest_posts are left
exactly as they were before the run. -/
theorem scrape_ddm_news_no_posts (pages : List PageOutcome)
    (resolve : Post → DetailOutcome) (o : PubOracle) (d hm : String)
    (fs : FS) (latest : List Post)
    (h : (crawlPages pages).1 = []) :
    scrape_ddm_news pages resolve o d hm fs latest = (fs, latest) := by
  have hemp : (crawlPages pages).1.isEmpty = true := by rw [h]; rfl
  simp only [scrape_ddm_news]
  rcases hex : (crawlPages pages).2 with _ | _ | _ <;> simp [hex, hemp]

/-- Witness for scrape_ddm_news_no_posts: a single listing page with no
valid items and no next link. -/
theorem scrape_ddm_news_no_posts_witness :
    (crawlPages [.ok [] false]).1 = [] ∧
    scrape_ddm_news [.ok [] false]
        (fun p => .detail ⟨p.detail_url, some "text", none⟩)
        ⟨true, none, true, true, true⟩ "20250101" "0300"
        ⟨some [pOld], none, []⟩ [pOld]
      = (⟨some [pOld], none, []⟩, [pOld]) :=
  ⟨by decide,
   scrape_ddm_news_no_posts [.ok [] false]
     (fun p => .detail ⟨p.detail_url, some "text", none⟩)
     ⟨true, none, true, true, true⟩ "20250101" "0300"
     ⟨some [pOld], none, []⟩ [pOld] (by decide)⟩

/-- C8: for every current local time with in-range fields and every target
hour:minute in range, the next run computed by periodic_scrape is today's
target time when the current time is strictly before it, and tomorrow's
target time when the current time is at or past it; in either case the
next run lies strictly in the future, so a run never fires immediately. -/
theorem periodic_scrape_next_run (t : LocalDT) (h m : Nat)
    (hv : ValidDT t) (hh : h < 24) (hm2 : m < 60) :
    (toMicros t < toMicros (replaceTime t h m) →
      next_run_time t h m = replaceTime t h m) ∧
    (toMicros (replaceTime t h m) ≤ toMicros t →
      next_run_time t h m = addOneDay (replaceTime t h m)) ∧
    toMicros t < toMicros (next_run_time t h m) := by
  obtain ⟨day, hour, minute, second, micro⟩ := t
  obtain ⟨h1, h2, h3, h4⟩ : _ ∧ _ ∧ _ ∧ _ := hv
  dsimp only at h1 h2 h3 h4
  by_cases hc : toMicros (replaceTime ⟨day, hour, minute, second, micro⟩
      h m) ≤ toMicros ⟨day, hour, minute, second, micro⟩
  · refine ⟨fun hlt => absurd hc (not_le.mpr hlt), fun _ => ?_, ?_⟩
    · unfold next_run_time
      rw [if_pos hc]
    · unfold next_run_time
      rw [if_pos hc]
      simp only [toMicros, replaceTime, addOneDay] at hc ⊢
      omega
  · refine ⟨fun _ => ?_, fun hle => absurd hle hc, ?_⟩
    · unfold next_run_time
      rw [if_neg hc]
    · unfold next_run_time
      rw [if_neg hc]
      simp only [toMicros, replaceTime] at hc ⊢
      omega

/-- Witness for periodic_scrape_next_run: 03:05 local time with a 03:00
target, where the computed next run is 03:00 on the following day. -/
theorem periodic_scrape_next_run_witness :
    (ValidDT ⟨100, 3, 5, 0, 0⟩ ∧ 3 < 24 ∧ 0 < 60 ∧
     next_run_time ⟨100, 3, 5, 0, 0⟩ 3 0 = ⟨101, 3, 0, 0, 0⟩) ∧
    ((toMicros ⟨100, 3, 5, 0, 0⟩
        < toMicros (replaceTime ⟨100, 3, 5, 0, 0⟩ 3 0) →
      next_run_time ⟨100, 3, 5, 0, 0⟩ 3 0
        = replaceTime ⟨100, 3, 5, 0, 0⟩ 3 0) ∧
     (toMicros (replaceTime ⟨100, 3, 5, 0, 0⟩ 3 0)
        ≤ toMicros ⟨100, 3, 5, 0, 0⟩ →
      next_run_time ⟨100, 3, 5, 0, 0⟩ 3 0
        = addOneDay (replaceTime ⟨100, 3, 5, 0, 0⟩ 3 0)) ∧
     toMicros ⟨100, 3, 5, 0, 0⟩
        < toMicros (next_run_time ⟨100, 3, 5, 0, 0⟩ 3 0)) :=
  ⟨⟨⟨by decide, by decide, by decide, by decide⟩, by decide, by decide,
      by decide⟩,
   periodic_scrape_next_run ⟨100, 3, 5, 0, 0⟩ 3 0
     ⟨by decide, by decide, by decide, by decide⟩ (by decide) (by decide)⟩

/-- C9: for every request, when the current dataset is empty the read API
returns exactly posts = [], total = 0, the request's offset and limit echoed
back, has_more = false, and last_updated absent (none), whatever the archive
directory holds. -/
theorem get_posts_empty (lastUpd : Option String) (offset limit : Nat) :
    get_posts [] lastUpd offset limit
      = ⟨[], 0, offset, limit, false, none⟩ := rfl

end DdmMonitor
